import Mathlib

/-!
Verification of the token-exchange and authorization core of the
fastmcp-hybrid-auth repository.

The development shallowly embeds the Python modules
`src/auth/keycloak_client.py`, `src/auth/token_exchange.py` and
`src/auth/authorization.py`:

* timestamps are integers (seconds); `datetime.utcnow()` becomes an explicit
  `now : Int` parameter;
* Python dictionaries keyed by strings become association lists;
* Python `Optional[str]` truthiness (`None` and `""` are falsy) is modelled
  explicitly;
* the network is modelled by a `ClientBehavior` oracle giving the outcome of
  the Keycloak token endpoint for exchange and refresh grants, and the
  orchestrator records the arguments of every network call it makes;
* raised exceptions become explicit error values (`Except`, `PyResult`).
-/

namespace HybridAuth

/-- Python `a or b` for `a : Optional[str]`, `b : str`: `None` and the empty
string are falsy, so they fall through to `b`. -/
def pyOrStr (a : Option String) (b : String) : String :=
  match a with
  | some s => if s = "" then b else s
  | none => b

/-- Python `a or b` for two `Optional[str]` values. -/
def pyOrOpt (a b : Option String) : Option String :=
  match a with
  | some s => if s = "" then b else some s
  | none => b

/-- Python truthiness of an `Optional[str]`: `None` and `""` are falsy. -/
def pyTruthyStr : Option String → Bool
  | none => false
  | some s => s ≠ ""

/-- Python dictionary read `d.get(k)` / `k in d`: the first binding of the
key in the association list standing for the dict. -/
def dictLookup (d : List (String × α)) (k : String) : Option α :=
  match d with
  | [] => none
  | (k', v) :: rest => if k = k' then some v else dictLookup rest k

/-- Python dictionary subscript `d[k]`: raises `KeyError` when the key is
absent. -/
def dictGet (d : List (String × α)) (k : String) : Except String α :=
  match dictLookup d k with
  | some v => Except.ok v
  | none => Except.error ("KeyError: " ++ k)

/-- The value of a `resource_access` claim entry: a JSON object that may
carry a `roles` array (`None` models an absent `"roles"` key, read through
`.get("roles", [])`). -/
structure ResourceRoles where
  roles : Option (List String)
deriving DecidableEq, Repr

/-- Model of `KeycloakToken` from `src/auth/keycloak_client.py` (lines 18-47): the
parsed result of a successful exchange or refresh. -/
structure KeycloakToken where
  access_token : String
  refresh_token : Option String
  expires_in : Int
  token_type : String
  scope : Option String
  sub : String
  preferred_username : String
  email : Option String
  roles : List String
  resource_access : List (String × ResourceRoles)
  issued_at : Int
  expires_at : Int
deriving DecidableEq, Repr

/-- Model of `KeycloakToken.is_expired`: `datetime.utcnow() >= self.expires_at`. -/
def KeycloakToken.is_expired (t : KeycloakToken) (now : Int) : Bool :=
  decide (t.expires_at ≤ now)

/-- Model of `KeycloakToken.needs_refresh`:
`datetime.utcnow() >= (self.expires_at - timedelta(minutes=5))`. -/
def KeycloakToken.needs_refresh (t : KeycloakToken) (now : Int) : Bool :=
  decide (t.expires_at - 300 ≤ now)

/-- The JSON body returned by the token endpoint (the fields
`_parse_token_response` reads from `token_data`). -/
structure TokenResponse where
  access_token : String
  refresh_token : Option String
  expires_in : Option Int
  token_type : Option String
  scope : Option String
deriving DecidableEq, Repr

/-- The `realm_access` claim object; its `roles` member may be absent. -/
structure RealmAccess where
  roles : Option (List String)
deriving DecidableEq, Repr

/-- The claims obtained by the unverified `jwt.decode` of the returned
access token (the fields `_parse_token_response` reads from `claims`). -/
structure TokenClaims where
  sub : Option String
  preferred_username : Option String
  email : Option String
  realm_access : Option RealmAccess
  resource_access : Option (List (String × ResourceRoles))
deriving DecidableEq, Repr

/-- Model of `KeycloakClient._parse_token_response` (lines 188-225).  `now` is the
`datetime.utcnow()` taken as `issued_at`; the decoded claims of the access
token are passed in explicitly since the JWT itself is opaque here. -/
def parse_token_response (now : Int) (token_data : TokenResponse)
    (claims : TokenClaims) : KeycloakToken :=
  let roles : List String :=
    match claims.realm_access with
    | some ra => ra.roles.getD []
    | none => []
  let resource_access := claims.resource_access.getD []
  let expires_in := token_data.expires_in.getD 300
  { access_token := token_data.access_token
    refresh_token := token_data.refresh_token
    expires_in := expires_in
    token_type := token_data.token_type.getD "Bearer"
    scope := token_data.scope
    sub := claims.sub.getD ""
    preferred_username := claims.preferred_username.getD ""
    email := claims.email
    roles := roles
    resource_access := resource_access
    issued_at := now
    expires_at := now + expires_in }

namespace KeycloakClient

/-- Model of `KeycloakClient.has_role`: `role in token.roles`. -/
def has_role (token : KeycloakToken) (role : String) : Bool :=
  token.roles.contains role

/-- Model of `KeycloakClient.has_resource_role` (lines 259-280).  The guarded dict
subscript `token.resource_access[resource]` is modelled through `dictGet`,
so the result records whether a `KeyError` could have been raised. -/
def has_resource_role (token : KeycloakToken) (resource role : String) :
    Except String Bool :=
  if (dictLookup token.resource_access resource).isSome then
    match dictGet token.resource_access resource with
    | Except.ok rr => Except.ok ((rr.roles.getD []).contains role)
    | Except.error e => Except.error e
  else
    Except.ok false

/-- Model of `KeycloakClient.has_any_role`:
`any(role in token.roles for role in roles)`. -/
def has_any_role (token : KeycloakToken) (roles : List String) : Bool :=
  roles.any (fun role => token.roles.contains role)

/-- Model of `KeycloakClient.has_all_roles`:
`all(role in token.roles for role in roles)`. -/
def has_all_roles (token : KeycloakToken) (roles : List String) : Bool :=
  roles.all (fun role => token.roles.contains role)

end KeycloakClient

/-! ## Token cache (`KeycloakTokenCache`, lines 336-367) -/

/-- The in-memory cache dict `user_id -> KeycloakToken`. -/
abbrev Cache := List (String × KeycloakToken)

/-- Model of `KeycloakTokenCache.delete` / the `del self._cache[user_id]` statement:
remove the key's binding from the dict. -/
def cacheDelete (c : Cache) (user_id : String) : Cache :=
  match c with
  | [] => []
  | (k, v) :: rest =>
      if k = user_id then cacheDelete rest user_id
      else (k, v) :: cacheDelete rest user_id

/-- Model of `KeycloakTokenCache.set`: dict assignment `self._cache[user_id] = token`. -/
def cacheSet (c : Cache) (user_id : String) (token : KeycloakToken) : Cache :=
  (user_id, token) :: cacheDelete c user_id

/-- Model of `KeycloakTokenCache.get` (lines 347-355): returns the cached token when
present and not expired; evicts a present-but-expired entry and returns
`none`.  Returns the value together with the updated cache. -/
def cacheGet (c : Cache) (user_id : String) (now : Int) :
    Option KeycloakToken × Cache :=
  match dictLookup c user_id with
  | some token =>
      if token.is_expired now then (none, cacheDelete c user_id)
      else (some token, c)
  | none => (none, c)

/-! ## Exchange orchestrator (`TokenExchangeService`, `src/auth/token_exchange.py`) -/

/-- The claims of the (already decoded) Entra ID token, restricted to the
fields `exchange_and_get_context` reads. -/
structure EntraClaims where
  oid : Option String
  sub : Option String
  email : Option String
  preferred_username : Option String
deriving DecidableEq, Repr

/-- An HTTP-layer failure of a token-endpoint call: a non-2xx status
(`raise_for_status`) or a network/timeout error.  This is what the spec
calls `ExchangeFailed` / `RefreshFailed`, depending on which call raised. -/
inductive HttpFailure where
  | httpStatus : Nat → String → HttpFailure
  | network : String → HttpFailure
deriving DecidableEq, Repr

/-- The network oracle: what the Keycloak token endpoint answers to an
exchange grant for a given subject token, and to a refresh grant for a given
refresh token.  A returned token stands for the parsed
`_parse_token_response` result. -/
structure ClientBehavior where
  exchangeResult : String → Except HttpFailure KeycloakToken
  refreshResult : String → Except HttpFailure KeycloakToken

/-- Model of `AuthContext` from `src/auth/token_exchange.py` (lines 18-50). -/
structure AuthContext where
  entra_id_token : String
  entra_user_id : String
  entra_email : Option String
  entra_claims : EntraClaims
  keycloak_token : KeycloakToken
  keycloak_user_id : String
  keycloak_roles : List String
deriving DecidableEq, Repr

/-- Model of the `AuthContext.roles` property: the Keycloak roles. -/
def AuthContext.roles (ctx : AuthContext) : List String :=
  ctx.keycloak_roles

/-- Model of the `AuthContext.user_id` property: the Entra ID user id. -/
def AuthContext.user_id (ctx : AuthContext) : String :=
  ctx.entra_user_id

/-- The primary user id derivation (line 115):
`entra_claims.get("oid") or entra_claims.get("sub", "")`. -/
def entraUserId (claims : EntraClaims) : String :=
  pyOrStr claims.oid (claims.sub.getD "")

/-- The email derivation (line 116):
`entra_claims.get("email") or entra_claims.get("preferred_username")`. -/
def entraEmail (claims : EntraClaims) : Option String :=
  pyOrOpt claims.email claims.preferred_username

/-- The construction of the `AuthContext` at the end of
`exchange_and_get_context` (lines 148-156). -/
def mkAuthContext (entra_token_str entra_user_id : String)
    (entra_email : Option String) (entra_claims : EntraClaims)
    (keycloak_token : KeycloakToken) : AuthContext :=
  { entra_id_token := entra_token_str
    entra_user_id := entra_user_id
    entra_email := entra_email
    entra_claims := entra_claims
    keycloak_token := keycloak_token
    keycloak_user_id := keycloak_token.sub
    keycloak_roles := keycloak_token.roles }

/-- The outcome of one `exchange_and_get_context` call: the returned context
or the propagated exception, the cache afterwards (`none` when caching is
disabled), and the arguments of the exchange and refresh network calls the
orchestrator made, in order. -/
structure CallResult where
  result : Except HttpFailure AuthContext
  cache : Option Cache
  exchangeArgs : List String
  refreshArgs : List String

/-- The cold-exchange tail of `exchange_and_get_context` (lines 138-163):
call `exchange_token` with the Entra token; on success store in the cache
(when caching is enabled) and build the context; on failure the exception
propagates and nothing is written. -/
def coldExchange (client : ClientBehavior) (cacheState : Option Cache)
    (entra_token_str entra_user_id : String) (entra_email : Option String)
    (entra_claims : EntraClaims) (refreshArgs : List String) : CallResult :=
  match client.exchangeResult entra_token_str with
  | Except.ok kt =>
      { result := Except.ok
          (mkAuthContext entra_token_str entra_user_id entra_email entra_claims kt)
        cache := cacheState.map (fun c => cacheSet c entra_user_id kt)
        exchangeArgs := [entra_token_str]
        refreshArgs := refreshArgs }
  | Except.error e =>
      { result := Except.error e
        cache := cacheState
        exchangeArgs := [entra_token_str]
        refreshArgs := refreshArgs }

/-- Model of `TokenExchangeService.exchange_and_get_context` (lines 80-163), on the
explicit-token path: the Entra claims are passed in decoded (the code decodes
them with `jwt.decode(..., verify_signature=False)`).  `cacheState` is
`some c` when `cache_tokens` is on (`self._token_cache` exists) and `none`
otherwise; `now` is the call time. -/
def exchange_and_get_context (client : ClientBehavior) (now : Int)
    (cacheState : Option Cache) (entra_token_str : String)
    (entra_claims : EntraClaims) : CallResult :=
  let entra_user_id := entraUserId entra_claims
  let entra_email := entraEmail entra_claims
  match cacheState with
  | none =>
      coldExchange client none entra_token_str entra_user_id entra_email
        entra_claims []
  | some c =>
      let g := cacheGet c entra_user_id now
      match g.1 with
      | none =>
          coldExchange client (some g.2) entra_token_str entra_user_id
            entra_email entra_claims []
      | some kt =>
          if kt.needs_refresh now && pyTruthyStr kt.refresh_token then
            let rt := kt.refresh_token.getD ""
            match client.refreshResult rt with
            | Except.ok kt2 =>
                { result := Except.ok (mkAuthContext entra_token_str
                    entra_user_id entra_email entra_claims kt2)
                  cache := some (cacheSet g.2 entra_user_id kt2)
                  exchangeArgs := []
                  refreshArgs := [rt] }
            | Except.error _ =>
                coldExchange client (some g.2) entra_token_str entra_user_id
                  entra_email entra_claims [rt]
          else
            { result := Except.ok (mkAuthContext entra_token_str entra_user_id
                entra_email entra_claims kt)
              cache := some g.2
              exchangeArgs := []
              refreshArgs := [] }

/-! ## Authorization policy layer (`src/auth/authorization.py`) -/

/-- The `AuthorizationError` exception: message plus the missing required
roles (`None` defaults to `[]` in `__init__`). -/
structure AuthorizationError where
  message : String
  required_roles : List String
deriving DecidableEq, Repr

/-- The outcome of evaluating a Python expression or call: a returned value,
a raised `AuthorizationError`, or any other raised exception (curried to its
`str(e)` rendering). -/
inductive PyResult (α : Type) where
  | ok : α → PyResult α
  | authError : AuthorizationError → PyResult α
  | otherError : String → PyResult α
deriving DecidableEq, Repr

/-- Whether the outcome is a raised `AuthorizationError`. -/
def isRaisedAuthError : PyResult α → Bool
  | PyResult.authError _ => true
  | _ => false

/-- Model of `return await func(*args, **kwargs)` under the decorators' shared
`try`/`except` ladder: an `AuthorizationError` raised by the target is
re-raised unchanged, any other exception is wrapped into
`AuthorizationError(f"Authorization check failed: {str(e)}")`. -/
def invokeWrapped (func : PyResult α) : PyResult α :=
  match func with
  | PyResult.otherError e =>
      PyResult.authError ⟨"Authorization check failed: " ++ e, []⟩
  | r => r

/-- The pass condition of `require_any_role`:
`user_roles.intersection(required_roles_set)` is non-empty. -/
def anyRoleCheck (userRoles required : List String) : Bool :=
  userRoles.any (fun r => required.contains r)

/-- The missing-role set of `require_all_roles`:
`required_roles_set - user_roles`.  Python iterates the set in an
unspecified order; the model fixes the order of the required list. -/
def allRolesMissing (userRoles required : List String) : List String :=
  required.filter (fun r => !(userRoles.contains r))

/-- The inline access check of `require_resource_role` (lines 188-191):
`resource in token.resource_access and
role in token.resource_access[resource].get("roles", [])`, with the dict
subscript modelled through `dictGet` so that a potential `KeyError` is
visible. -/
def resourceRoleAccess (token : KeycloakToken) (resource role : String) :
    Except String Bool :=
  if (dictLookup token.resource_access resource).isSome then
    match dictGet token.resource_access resource with
    | Except.ok rr => Except.ok ((rr.roles.getD []).contains role)
    | Except.error e => Except.error e
  else
    Except.ok false

/-- The `require_role(role)` decorator's wrapper (lines 48-73).  `getCtx` is
the outcome of `await get_auth_context()`, `func` the outcome the wrapped
target would produce if invoked. -/
def require_role (role : String) (getCtx : PyResult AuthContext)
    (func : PyResult α) : PyResult α :=
  match getCtx with
  | PyResult.ok ctx =>
      if ctx.roles.any (fun r => role == r) then
        invokeWrapped func
      else
        PyResult.authError
          ⟨"Insufficient permissions. Required role: " ++ role, [role]⟩
  | PyResult.authError e => PyResult.authError e
  | PyResult.otherError e =>
      PyResult.authError ⟨"Authorization check failed: " ++ e, []⟩

/-- The `require_any_role(roles)` decorator's wrapper (lines 91-117). -/
def require_any_role (roles : List String) (getCtx : PyResult AuthContext)
    (func : PyResult α) : PyResult α :=
  match getCtx with
  | PyResult.ok ctx =>
      if anyRoleCheck ctx.roles roles then
        invokeWrapped func
      else
        PyResult.authError
          ⟨"Insufficient permissions. Required any of: " ++
            String.intercalate ", " roles, roles⟩
  | PyResult.authError e => PyResult.authError e
  | PyResult.otherError e =>
      PyResult.authError ⟨"Authorization check failed: " ++ e, []⟩

/-- The `require_all_roles(roles)` decorator's wrapper (lines 135-162). -/
def require_all_roles (roles : List String) (getCtx : PyResult AuthContext)
    (func : PyResult α) : PyResult α :=
  match getCtx with
  | PyResult.ok ctx =>
      let missing := allRolesMissing ctx.roles roles
      if missing.isEmpty then
        invokeWrapped func
      else
        PyResult.authError
          ⟨"Insufficient permissions. Missing roles: " ++
            String.intercalate ", " missing, missing⟩
  | PyResult.authError e => PyResult.authError e
  | PyResult.otherError e =>
      PyResult.authError ⟨"Authorization check failed: " ++ e, []⟩

/-- The `require_resource_role(resource, role)` decorator's wrapper
(lines 181-211).  A `KeyError` escaping the access expression would be
caught by the generic `except Exception` arm. -/
def require_resource_role (resource role : String)
    (getCtx : PyResult AuthContext) (func : PyResult α) : PyResult α :=
  match getCtx with
  | PyResult.ok ctx =>
      match resourceRoleAccess ctx.keycloak_token resource role with
      | Except.ok has_access =>
          if has_access then
            invokeWrapped func
          else
            PyResult.authError
              ⟨"Insufficient permissions. Required: " ++ resource ++ ":" ++
                role, []⟩
      | Except.error e =>
          PyResult.authError ⟨"Authorization check failed: " ++ e, []⟩
  | PyResult.authError e => PyResult.authError e
  | PyResult.otherError e =>
      PyResult.authError ⟨"Authorization check failed: " ++ e, []⟩

/-- The `require_custom_check(check_func, error_message)` decorator's wrapper
(lines 232-253). -/
def require_custom_check (check_func : AuthContext → Bool)
    (error_message : String) (getCtx : PyResult AuthContext)
    (func : PyResult α) : PyResult α :=
  match getCtx with
  | PyResult.ok ctx =>
      if check_func ctx then
        invokeWrapped func
      else
        PyResult.authError ⟨error_message, []⟩
  | PyResult.authError e => PyResult.authError e
  | PyResult.otherError e =>
      PyResult.authError ⟨"Authorization check failed: " ++ e, []⟩

/-- The dictionary shape produced by `format_authorization_error`
(lines 351-366). -/
structure AuthErrorDict where
  success : Bool
  error : String
  message : String
  required_roles : List String
deriving DecidableEq, Repr

/-- Model of `format_authorization_error`: the structured tool-response rendering of
an `AuthorizationError`. -/
def format_authorization_error (e : AuthorizationError) : AuthErrorDict :=
  { success := false
    error := "authorization_failed"
    message := e.message
    required_roles := e.required_roles }

/-! ## Helper lemmas -/

theorem dictLookup_cacheDelete_self (c : Cache) (uid : String) :
    dictLookup (cacheDelete c uid) uid = none := by
  induction c with
  | nil => rfl
  | cons p c ih =>
      obtain ⟨k, b⟩ := p
      by_cases h : k = uid
      · simpa [cacheDelete, h] using ih
      · have hne : uid ≠ k := fun hc => h hc.symm
        simpa [cacheDelete, h, dictLookup, hne] using ih

theorem dictLookup_cacheDelete_ne (c : Cache) (uid v : String) (h : v ≠ uid) :
    dictLookup (cacheDelete c uid) v = dictLookup c v := by
  induction c with
  | nil => rfl
  | cons p c ih =>
      obtain ⟨k, b⟩ := p
      by_cases hp : k = uid
      · have hv : v ≠ k := fun hc => h (hc.trans hp)
        simpa [cacheDelete, hp, dictLookup, hv, h] using ih
      · by_cases hv : v = k
        · simp [cacheDelete, hp, dictLookup, hv]
        · simpa [cacheDelete, hp, dictLookup, hv] using ih

theorem dictLookup_cacheSet_self (c : Cache) (uid : String)
    (t : KeycloakToken) : dictLookup (cacheSet c uid t) uid = some t := by
  simp [cacheSet, dictLookup]

theorem dictLookup_cacheSet_ne (c : Cache) (uid v : String)
    (t : KeycloakToken) (h : v ≠ uid) :
    dictLookup (cacheSet c uid t) v = dictLookup c v := by
  simp [cacheSet, dictLookup, h, dictLookup_cacheDelete_ne c uid v h]

theorem is_expired_mono {t : KeycloakToken} {now later : Int}
    (h : now ≤ later) (he : t.is_expired now = true) :
    t.is_expired later = true := by
  simp [KeycloakToken.is_expired] at he ⊢
  omega

theorem needs_refresh_of_is_expired {t : KeycloakToken} {now : Int}
    (he : t.is_expired now = true) : t.needs_refresh now = true := by
  simp [KeycloakToken.is_expired] at he
  simp [KeycloakToken.needs_refresh]
  omega

theorem not_expired_of_not_needs_refresh {t : KeycloakToken} {now : Int}
    (h : t.needs_refresh now = false) : t.is_expired now = false := by
  simp [KeycloakToken.needs_refresh] at h
  simp [KeycloakToken.is_expired]
  omega

theorem cacheGet_hit {c : Cache} {uid : String} {t : KeycloakToken}
    {now : Int} (h : dictLookup c uid = some t)
    (he : t.is_expired now = false) : cacheGet c uid now = (some t, c) := by
  simp [cacheGet, h, he]

theorem cacheGet_evict {c : Cache} {uid : String} {t : KeycloakToken}
    {now : Int} (h : dictLookup c uid = some t)
    (he : t.is_expired now = true) :
    cacheGet c uid now = (none, cacheDelete c uid) := by
  simp [cacheGet, h, he]

theorem cacheGet_miss {c : Cache} {uid : String} {now : Int}
    (h : dictLookup c uid = none) : cacheGet c uid now = (none, c) := by
  simp [cacheGet, h]

/-- The lazy eviction done by `cacheGet` is unobservable through later
`cacheGet` reads: once expired, an entry stays expired. -/
theorem cacheGet_obs (c : Cache) (uid : String) (now : Int) (v : String)
    (later : Int) (hle : now ≤ later) :
    (cacheGet (cacheGet c uid now).2 v later).1 = (cacheGet c v later).1 := by
  rcases hl : dictLookup c uid with _ | t
  · simp [cacheGet_miss hl]
  · rcases he : t.is_expired now with _ | _
    · simp [cacheGet_hit hl he]
    · rw [cacheGet_evict hl he]
      by_cases hv : v = uid
      · subst hv
        rw [show (cacheGet (cacheDelete c v) v later).1 = none by
          simp [cacheGet_miss (dictLookup_cacheDelete_self c v)]]
        have hexp' : t.is_expired later = true := is_expired_mono hle he
        simp [cacheGet_evict hl hexp']
      · rcases hlv : dictLookup c v with _ | tv
        · simp [cacheGet, dictLookup_cacheDelete_ne c uid v hv, hlv]
        · rcases hev : tv.is_expired later with _ | _ <;>
            simp [cacheGet, dictLookup_cacheDelete_ne c uid v hv, hlv, hev]

theorem cacheGet_fst_some {c : Cache} {uid : String} {now : Int}
    {kt : KeycloakToken} (h : (cacheGet c uid now).1 = some kt) :
    dictLookup c uid = some kt ∧ kt.is_expired now = false ∧
      (cacheGet c uid now).2 = c := by
  rcases hl : dictLookup c uid with _ | t
  · rw [cacheGet_miss hl] at h
    cases h
  · rcases he : t.is_expired now with _ | _
    · rw [cacheGet_hit hl he] at h
      simp at h
      subst h
      exact ⟨rfl, he, by rw [cacheGet_hit hl he]⟩
    · rw [cacheGet_evict hl he] at h
      cases h

/-- Evaluation of `exchange_and_get_context` on the cache-hit, no-refresh
path: the cached token is reused and no network call is made. -/
theorem egc_reuse {client : ClientBehavior} {now : Int} {c : Cache}
    {tok : String} {claims : EntraClaims} {kt : KeycloakToken}
    (h1 : (cacheGet c (entraUserId claims) now).1 = some kt)
    (h2 : (kt.needs_refresh now && pyTruthyStr kt.refresh_token) = false) :
    exchange_and_get_context client now (some c) tok claims =
      { result := Except.ok
          (mkAuthContext tok (entraUserId claims) (entraEmail claims) claims kt)
        cache := some (cacheGet c (entraUserId claims) now).2
        exchangeArgs := []
        refreshArgs := [] } := by
  simp only [exchange_and_get_context, h1, h2, Bool.false_eq_true, if_false]

/-- Evaluation on the cache-miss (or evicted-expired) path: it falls to the
cold exchange. -/
theorem egc_miss {client : ClientBehavior} {now : Int} {c : Cache}
    {tok : String} {claims : EntraClaims}
    (h1 : (cacheGet c (entraUserId claims) now).1 = none) :
    exchange_and_get_context client now (some c) tok claims =
      coldExchange client (some (cacheGet c (entraUserId claims) now).2) tok
        (entraUserId claims) (entraEmail claims) claims [] := by
  simp only [exchange_and_get_context, h1]

/-- Evaluation on the stale-with-refresh-token path when the refresh call
succeeds: the refreshed token is stored and returned, no exchange happens. -/
theorem egc_refresh_ok {client : ClientBehavior} {now : Int} {c : Cache}
    {tok : String} {claims : EntraClaims} {kt kt2 : KeycloakToken}
    {rt : String}
    (h1 : (cacheGet c (entraUserId claims) now).1 = some kt)
    (h2 : kt.needs_refresh now = true)
    (h3 : kt.refresh_token = some rt)
    (h4 : rt ≠ "")
    (h5 : client.refreshResult rt = Except.ok kt2) :
    exchange_and_get_context client now (some c) tok claims =
      { result := Except.ok
          (mkAuthContext tok (entraUserId claims) (entraEmail claims) claims kt2)
        cache := some
          (cacheSet (cacheGet c (entraUserId claims) now).2
            (entraUserId claims) kt2)
        exchangeArgs := []
        refreshArgs := [rt] } := by
  simp only [exchange_and_get_context, h1, h2, h3, pyTruthyStr, h4,
    Option.getD_some, ne_eq, decide_not, Bool.and_self, decide_eq_true_eq,
    h5, if_true, Bool.and_true, decide_eq_false_iff_not, not_false_eq_true,
    decide_eq_true_iff]
  simp [h4, h5]

/-- Evaluation on the stale-with-refresh-token path when the refresh call
fails: the refresh error is swallowed and it falls to the cold exchange. -/
theorem egc_refresh_err {client : ClientBehavior} {now : Int} {c : Cache}
    {tok : String} {claims : EntraClaims} {kt : KeycloakToken} {rt : String}
    {er : HttpFailure}
    (h1 : (cacheGet c (entraUserId claims) now).1 = some kt)
    (h2 : kt.needs_refresh now = true)
    (h3 : kt.refresh_token = some rt)
    (h4 : rt ≠ "")
    (h5 : client.refreshResult rt = Except.error er) :
    exchange_and_get_context client now (some c) tok claims =
      coldExchange client (some (cacheGet c (entraUserId claims) now).2) tok
        (entraUserId claims) (entraEmail claims) claims [rt] := by
  simp only [exchange_and_get_context, h1, h2, h3, pyTruthyStr,
    Option.getD_some]
  simp [h4, h5]

/-! ## Sample data for concrete evaluations -/

/-- A fresh token: expires at 3600, carries a refresh token. -/
def tokFresh : KeycloakToken :=
  { access_token := "kc-access"
    refresh_token := some "kc-refresh"
    expires_in := 3600
    token_type := "Bearer"
    scope := none
    sub := "kc-user"
    preferred_username := "alice"
    email := some "alice@example.com"
    roles := ["data_reader"]
    resource_access := [("critical-data-api", ⟨some ["writer"]⟩)]
    issued_at := 0
    expires_at := 3600 }

/-- A stale token at time 1000 (expires at 1100, inside the 5-minute
refresh window, not yet expired) with no refresh token. -/
def tokStaleNoRefresh : KeycloakToken :=
  { tokFresh with refresh_token := none, expires_at := 1100 }

/-- A stale token at time 1000 (expires at 1100) with a refresh token. -/
def tokStaleWithRefresh : KeycloakToken :=
  { tokFresh with expires_at := 1100 }

/-- A token already expired at time 1000. -/
def tokExpired : KeycloakToken :=
  { tokFresh with expires_at := 500 }

/-- Entra claims whose primary user id resolves to `"u1"`. -/
def claimsU1 : EntraClaims :=
  { oid := some "u1", sub := none, email := none, preferred_username := none }

/-- A client whose exchange succeeds with `tokFresh` and whose refresh
fails with HTTP 401. -/
def clientExchangeOk : ClientBehavior :=
  { exchangeResult := fun _ => Except.ok tokFresh
    refreshResult := fun _ => Except.error (HttpFailure.httpStatus 401 "invalid_grant") }

/-- A client whose exchange fails with HTTP 401 and whose refresh also
fails. -/
def clientBothFail : ClientBehavior :=
  { exchangeResult := fun _ => Except.error (HttpFailure.httpStatus 401 "unauthorized")
    refreshResult := fun _ => Except.error (HttpFailure.httpStatus 401 "invalid_grant") }

/-- A sample `AuthContext` with a single `data_reader` role. -/
def ctxReader : AuthContext :=
  mkAuthContext "entra-token" "u1" none claimsU1 tokFresh

/-! ## Claims -/

/-- C5: for every token built by `_parse_token_response`, `is_expired` holds
iff now ≥ issuance + lifetime and `needs_refresh` holds iff
now ≥ issuance + lifetime − 300 s; for every token, `is_expired` implies
`needs_refresh`; and every parsed token satisfies
`expires_at = issued_at + expires_in`. -/
theorem C5_expiry_predicates (now0 now : Int) (td : TokenResponse)
    (claims : TokenClaims) (t' : KeycloakToken) :
    ((parse_token_response now0 td claims).is_expired now = true ↔
      (parse_token_response now0 td claims).issued_at +
        (parse_token_response now0 td claims).expires_in ≤ now) ∧
    ((parse_token_response now0 td claims).needs_refresh now = true ↔
      (parse_token_response now0 td claims).issued_at +
        (parse_token_response now0 td claims).expires_in - 300 ≤ now) ∧
    (t'.is_expired now = true → t'.needs_refresh now = true) ∧
    (parse_token_response now0 td claims).expires_at =
      (parse_token_response now0 td claims).issued_at +
        (parse_token_response now0 td claims).expires_in := by
  refine ⟨?_, ?_, fun h => needs_refresh_of_is_expired h, rfl⟩ <;>
    simp [parse_token_response, KeycloakToken.is_expired,
      KeycloakToken.needs_refresh]

/-- Witness for C5 at a concrete parsed token and time. -/
theorem C5_expiry_predicates_witness :
    (parse_token_response 0
        ⟨"at", none, some 3600, none, none⟩ ⟨none, none, none, none, none⟩).expires_at =
      (parse_token_response 0
        ⟨"at", none, some 3600, none, none⟩ ⟨none, none, none, none, none⟩).issued_at +
        (parse_token_response 0
          ⟨"at", none, some 3600, none, none⟩ ⟨none, none, none, none, none⟩).expires_in ∧
    tokExpired.needs_refresh 1000 = true :=
  ⟨(C5_expiry_predicates 0 1000 ⟨"at", none, some 3600, none, none⟩
      ⟨none, none, none, none, none⟩ tokExpired).2.2.2,
   (C5_expiry_predicates 0 1000 ⟨"at", none, some 3600, none, none⟩
      ⟨none, none, none, none, none⟩ tokExpired).2.2.1 (by decide)⟩

/-- C6: `put(u, t)` followed immediately by `get(u)` returns `t` iff `t` is
not expired at read time; reading an expired entry returns absent and
removes it, so a later `get(u)` (at any later read time) is still absent
without another `put`. -/
theorem C6_cache_put_get (c : Cache) (u : String) (t : KeycloakToken)
    (now later : Int) :
    ((cacheGet (cacheSet c u t) u now).1 = some t ↔
      t.is_expired now = false) ∧
    (t.is_expired now = true →
      (cacheGet (cacheSet c u t) u now).1 = none ∧
      dictLookup (cacheGet (cacheSet c u t) u now).2 u = none ∧
      (cacheGet (cacheGet (cacheSet c u t) u now).2 u later).1 = none) := by
  have hl := dictLookup_cacheSet_self c u t
  constructor
  · constructor
    · intro h
      rcases he : t.is_expired now with _ | _
      · rfl
      · rw [cacheGet_evict hl he] at h
        simp at h
    · intro he
      rw [cacheGet_hit hl he]
  · intro he
    rw [cacheGet_evict hl he]
    refine ⟨rfl, dictLookup_cacheDelete_self _ u, ?_⟩
    rw [cacheGet_miss (dictLookup_cacheDelete_self _ u)]

/-- Witness for C6: a non-expired put/get round-trip and an expired
eviction, both at concrete inputs. -/
theorem C6_cache_put_get_witness :
    ((cacheGet (cacheSet [] "u1" tokFresh) "u1" 1000).1 = some tokFresh) ∧
    ((cacheGet (cacheSet [] "u1" tokExpired) "u1" 1000).1 = none ∧
      dictLookup (cacheGet (cacheSet [] "u1" tokExpired) "u1" 1000).2 "u1" = none ∧
      (cacheGet (cacheGet (cacheSet [] "u1" tokExpired) "u1" 1000).2 "u1" 2000).1 = none) :=
  ⟨(C6_cache_put_get [] "u1" tokFresh 1000 2000).1.mpr (by decide),
   (C6_cache_put_get [] "u1" tokExpired 1000 2000).2 (by decide)⟩

/-- C8: the any-of predicate passes iff the user's roles intersect the
required set; the all-of predicate passes iff the required set is contained
in the user's roles; with an empty required set, any-of always fails and
all-of always passes.  Stated both for the client helpers `has_any_role` /
`has_all_roles` and for the decorators' check expressions. -/
theorem C8_any_all_predicates (t : KeycloakToken)
    (required userRoles : List String) :
    (KeycloakClient.has_any_role t required = true ↔
      ∃ r ∈ required, r ∈ t.roles) ∧
    (KeycloakClient.has_all_roles t required = true ↔
      ∀ r ∈ required, r ∈ t.roles) ∧
    (anyRoleCheck userRoles required = true ↔
      ∃ r ∈ userRoles, r ∈ required) ∧
    ((allRolesMissing userRoles required).isEmpty = true ↔
      ∀ r ∈ required, r ∈ userRoles) ∧
    KeycloakClient.has_any_role t [] = false ∧
    KeycloakClient.has_all_roles t [] = true ∧
    anyRoleCheck userRoles [] = false ∧
    (allRolesMissing userRoles []).isEmpty = true := by
  refine ⟨?_, ?_, ?_, ?_, rfl, rfl, by simp [anyRoleCheck], rfl⟩ <;>
    simp [KeycloakClient.has_any_role, KeycloakClient.has_all_roles,
      anyRoleCheck, allRolesMissing, List.any_eq_true, List.all_eq_true,
      List.isEmpty_iff, List.filter_eq_nil_iff, List.elem_iff]

/-- Witness for C8 at concrete role lists. -/
theorem C8_any_all_predicates_witness :
    KeycloakClient.has_any_role tokFresh ["admin", "data_reader"] = true ∧
    KeycloakClient.has_all_roles tokFresh ["data_reader"] = true :=
  ⟨(C8_any_all_predicates tokFresh ["admin", "data_reader"] []).1.mpr
      ⟨"data_reader", by decide, by decide⟩,
   (C8_any_all_predicates tokFresh ["data_reader"] []).2.1.mpr
      (by intro r hr; simp at hr; simp [hr, tokFresh])⟩

/-- C9: the resource-role predicate always evaluates to a value (never a
`KeyError`); it passes iff the resource is a key of the resource-access map
and the role belongs to that resource's role list; an absent resource key
yields a clean `false`.  Stated both for `KeycloakClient.has_resource_role`
and for the `require_resource_role` decorator's inline access check. -/
theorem C9_resource_role_predicate (t : KeycloakToken)
    (resource role : String) :
    (∃ b, KeycloakClient.has_resource_role t resource role = Except.ok b) ∧
    (KeycloakClient.has_resource_role t resource role = Except.ok true ↔
      ∃ rr, dictLookup t.resource_access resource = some rr ∧
        (rr.roles.getD []).contains role = true) ∧
    (dictLookup t.resource_access resource = none →
      KeycloakClient.has_resource_role t resource role = Except.ok false) ∧
    (∃ b, resourceRoleAccess t resource role = Except.ok b) ∧
    (resourceRoleAccess t resource role = Except.ok true ↔
      ∃ rr, dictLookup t.resource_access resource = some rr ∧
        (rr.roles.getD []).contains role = true) ∧
    (dictLookup t.resource_access resource = none →
      resourceRoleAccess t resource role = Except.ok false) := by
  rcases hl : dictLookup t.resource_access resource with _ | rr
  · refine ⟨⟨false, ?_⟩, ?_, fun _ => ?_, ⟨false, ?_⟩, ?_, fun _ => ?_⟩ <;>
      simp [KeycloakClient.has_resource_role, resourceRoleAccess, hl]
  · refine ⟨⟨(rr.roles.getD []).contains role, ?_⟩, ?_, fun h => ?_,
      ⟨(rr.roles.getD []).contains role, ?_⟩, ?_, fun h => ?_⟩ <;>
      simp_all [KeycloakClient.has_resource_role, resourceRoleAccess,
        dictGet, hl]

/-- Witness for C9: present and absent resource keys at concrete inputs. -/
theorem C9_resource_role_predicate_witness :
    KeycloakClient.has_resource_role tokFresh "critical-data-api" "writer" =
      Except.ok true ∧
    KeycloakClient.has_resource_role tokFresh "absent-api" "writer" =
      Except.ok false ∧
    resourceRoleAccess tokFresh "critical-data-api" "reader" =
      Except.ok false :=
  ⟨(C9_resource_role_predicate tokFresh "critical-data-api" "writer").2.1.mpr
      ⟨⟨some ["writer"]⟩, by decide, by decide⟩,
   (C9_resource_role_predicate tokFresh "absent-api" "writer").2.2.1
      (by decide),
   by rfl⟩

/-- C2 counterexample: at a concrete context whose roles fail the
`require_role "admin"` gate, the gate's outcome is a raised
`AuthorizationError` crossing the gate boundary — not a returned structured
failure value.  (The structured dict exists only via the separate helper
`format_authorization_error`, which the gate itself never applies.) -/
theorem C2_counterexample :
    ctxReader.roles.any (fun r => "admin" == r) = false ∧
    require_role "admin" (PyResult.ok ctxReader) (PyResult.ok (0 : Nat)) =
      PyResult.authError
        ⟨"Insufficient permissions. Required role: admin", ["admin"]⟩ ∧
    isRaisedAuthError
      (require_role "admin" (PyResult.ok ctxReader)
        (PyResult.ok (0 : Nat))) = true :=
  ⟨by decide, by rfl, by rfl⟩

/-- C2 amended: for every gate and every context failing its predicate, the
gate raises an `AuthorizationError` (message plus required-roles list) to
its caller without invoking the wrapped target operation; the structured
failure dictionary (success=false, message, required-roles) is produced by
the separate helper `format_authorization_error`, which callers must apply
to the raised error themselves. -/
theorem C2_gate_denial_raises (α : Type) (ctx : AuthContext) (role : String)
    (roles : List String) (resource rrole errMsg : String)
    (check : AuthContext → Bool) (f g : PyResult α) :
    (ctx.roles.any (fun r => role == r) = false →
      require_role role (PyResult.ok ctx) f =
        PyResult.authError
          ⟨"Insufficient permissions. Required role: " ++ role, [role]⟩ ∧
      require_role role (PyResult.ok ctx) f =
        require_role role (PyResult.ok ctx) g) ∧
    (anyRoleCheck ctx.roles roles = false →
      require_any_role roles (PyResult.ok ctx) f =
        PyResult.authError
          ⟨"Insufficient permissions. Required any of: " ++
            String.intercalate ", " roles, roles⟩ ∧
      require_any_role roles (PyResult.ok ctx) f =
        require_any_role roles (PyResult.ok ctx) g) ∧
    ((allRolesMissing ctx.roles roles).isEmpty = false →
      isRaisedAuthError (require_all_roles roles (PyResult.ok ctx) f) = true ∧
      require_all_roles roles (PyResult.ok ctx) f =
        require_all_roles roles (PyResult.ok ctx) g) ∧
    (resourceRoleAccess ctx.keycloak_token resource rrole = Except.ok false →
      require_resource_role resource rrole (PyResult.ok ctx) f =
        PyResult.authError
          ⟨"Insufficient permissions. Required: " ++ resource ++ ":" ++
            rrole, []⟩ ∧
      require_resource_role resource rrole (PyResult.ok ctx) f =
        require_resource_role resource rrole (PyResult.ok ctx) g) ∧
    (check ctx = false →
      require_custom_check check errMsg (PyResult.ok ctx) f =
        PyResult.authError ⟨errMsg, []⟩ ∧
      require_custom_check check errMsg (PyResult.ok ctx) f =
        require_custom_check check errMsg (PyResult.ok ctx) g) ∧
    (∀ e : AuthorizationError,
      format_authorization_error e =
        { success := false
          error := "authorization_failed"
          message := e.message
          required_roles := e.required_roles }) := by
  refine ⟨fun h => ?_, fun h => ?_, fun h => ?_, fun h => ?_, fun h => ?_,
    fun e => rfl⟩
  · simp [require_role, h]
  · simp [require_any_role, h]
  · simp [require_all_roles, h, isRaisedAuthError]
  · simp [require_resource_role, h]
  · simp [require_custom_check, h]

/-- Witness for the amended C2 at a concrete denied `require_role` gate. -/
theorem C2_gate_denial_raises_witness :
    require_role "admin" (PyResult.ok ctxReader) (PyResult.ok (1 : Nat)) =
      PyResult.authError
        ⟨"Insufficient permissions. Required role: admin", ["admin"]⟩ ∧
    require_role "admin" (PyResult.ok ctxReader) (PyResult.ok (1 : Nat)) =
      require_role "admin" (PyResult.ok ctxReader) (PyResult.ok (2 : Nat)) :=
  (C2_gate_denial_raises Nat ctxReader "admin" ["admin"] "critical-data-api"
    "reader" "Tenant not authorized" (fun _ => false) (PyResult.ok 1)
    (PyResult.ok 2)).1 (by decide)

/-- C10: for each of the five gate decorators, when the predicate passes but
the wrapped target raises a non-`AuthorizationError` exception, the gate
replaces it by `AuthorizationError("Authorization check failed: <error>")`
with an empty required-roles list, so the target's own exception never
reaches the caller unwrapped. -/
theorem C10_target_error_wrapped (α : Type) (ctx : AuthContext)
    (role : String) (roles : List String) (resource rrole errMsg e : String)
    (check : AuthContext → Bool) :
    (ctx.roles.any (fun r => role == r) = true →
      require_role role (PyResult.ok ctx)
          (PyResult.otherError e : PyResult α) =
        PyResult.authError ⟨"Authorization check failed: " ++ e, []⟩) ∧
    (anyRoleCheck ctx.roles roles = true →
      require_any_role roles (PyResult.ok ctx)
          (PyResult.otherError e : PyResult α) =
        PyResult.authError ⟨"Authorization check failed: " ++ e, []⟩) ∧
    ((allRolesMissing ctx.roles roles).isEmpty = true →
      require_all_roles roles (PyResult.ok ctx)
          (PyResult.otherError e : PyResult α) =
        PyResult.authError ⟨"Authorization check failed: " ++ e, []⟩) ∧
    (resourceRoleAccess ctx.keycloak_token resource rrole = Except.ok true →
      require_resource_role resource rrole (PyResult.ok ctx)
          (PyResult.otherError e : PyResult α) =
        PyResult.authError ⟨"Authorization check failed: " ++ e, []⟩) ∧
    (check ctx = true →
      require_custom_check check errMsg (PyResult.ok ctx)
          (PyResult.otherError e : PyResult α) =
        PyResult.authError ⟨"Authorization check failed: " ++ e, []⟩) := by
  refine ⟨fun h => ?_, fun h => ?_, fun h => ?_, fun h => ?_, fun h => ?_⟩ <;>
    simp [require_role, require_any_role, require_all_roles,
      require_resource_role, require_custom_check, h, invokeWrapped]

/-- Witness for C10: all five gates at a concrete passing context and a
concrete target exception. -/
theorem C10_target_error_wrapped_witness :
    require_role "data_reader" (PyResult.ok ctxReader)
        (PyResult.otherError "boom" : PyResult Nat) =
      PyResult.authError ⟨"Authorization check failed: boom", []⟩ ∧
    require_any_role ["data_reader"] (PyResult.ok ctxReader)
        (PyResult.otherError "boom" : PyResult Nat) =
      PyResult.authError ⟨"Authorization check failed: boom", []⟩ ∧
    require_all_roles ["data_reader"] (PyResult.ok ctxReader)
        (PyResult.otherError "boom" : PyResult Nat) =
      PyResult.authError ⟨"Authorization check failed: boom", []⟩ ∧
    require_resource_role "critical-data-api" "writer" (PyResult.ok ctxReader)
        (PyResult.otherError "boom" : PyResult Nat) =
      PyResult.authError ⟨"Authorization check failed: boom", []⟩ ∧
    require_custom_check (fun _ => true) "denied" (PyResult.ok ctxReader)
        (PyResult.otherError "boom" : PyResult Nat) =
      PyResult.authError ⟨"Authorization check failed: boom", []⟩ :=
  ⟨(C10_target_error_wrapped Nat ctxReader "data_reader" ["data_reader"]
      "critical-data-api" "writer" "denied" "boom" (fun _ => true)).1
      (by decide),
   (C10_target_error_wrapped Nat ctxReader "data_reader" ["data_reader"]
      "critical-data-api" "writer" "denied" "boom" (fun _ => true)).2.1
      (by decide),
   (C10_target_error_wrapped Nat ctxReader "data_reader" ["data_reader"]
      "critical-data-api" "writer" "denied" "boom" (fun _ => true)).2.2.1
      (by decide),
   (C10_target_error_wrapped Nat ctxReader "data_reader" ["data_reader"]
      "critical-data-api" "writer" "denied" "boom" (fun _ => true)).2.2.2.1
      (by rfl),
   (C10_target_error_wrapped Nat ctxReader "data_reader" ["data_reader"]
      "critical-data-api" "writer" "denied" "boom" (fun _ => true)).2.2.2.2
      (by rfl)⟩

/-- C1 counterexample: at time 1000 the cache holds, for the primary user
id, a token inside the refresh window (`needs_refresh`), not yet expired,
with no refresh token.  `exchange_and_get_context` makes no exchange call
(and no refresh call) and returns a context built from the stale cached
token — contradicting the claim that `Client.exchange` is called and the
stale token is not reused. -/
theorem C1_counterexample :
    tokStaleNoRefresh.needs_refresh 1000 = true ∧
    tokStaleNoRefresh.is_expired 1000 = false ∧
    tokStaleNoRefresh.refresh_token = none ∧
    (exchange_and_get_context clientExchangeOk 1000
        (some [("u1", tokStaleNoRefresh)]) "entra-token"
        claimsU1).exchangeArgs = [] ∧
    (exchange_and_get_context clientExchangeOk 1000
        (some [("u1", tokStaleNoRefresh)]) "entra-token"
        claimsU1).refreshArgs = [] ∧
    (exchange_and_get_context clientExchangeOk 1000
        (some [("u1", tokStaleNoRefresh)]) "entra-token" claimsU1).result =
      Except.ok
        (mkAuthContext "entra-token" "u1" none claimsU1 tokStaleNoRefresh) :=
  ⟨by decide, by decide, by rfl, by rfl, by rfl, by rfl⟩

/-- C1 amended: when the cache lookup yields a token that `needs_refresh`
but carries no (truthy) refresh token, the orchestrator makes no network
call at all — the stale (but not yet expired) cached token is reused as-is
and the cache is left unchanged.  Cold exchange happens only when the
lookup yields no token (miss or expired-evicted) or after a failed
refresh. -/
theorem C1_stale_without_refresh_reused (client : ClientBehavior) (now : Int)
    (c : Cache) (tok : String) (claims : EntraClaims) (kt : KeycloakToken)
    (h1 : (cacheGet c (entraUserId claims) now).1 = some kt)
    (h2 : pyTruthyStr kt.refresh_token = false) :
    (exchange_and_get_context client now (some c) tok claims).exchangeArgs =
      [] ∧
    (exchange_and_get_context client now (some c) tok claims).refreshArgs =
      [] ∧
    (exchange_and_get_context client now (some c) tok claims).result =
      Except.ok (mkAuthContext tok (entraUserId claims) (entraEmail claims)
        claims kt) ∧
    (exchange_and_get_context client now (some c) tok claims).cache =
      some c := by
  have hcond : (kt.needs_refresh now && pyTruthyStr kt.refresh_token) =
      false := by
    simp [h2]
  have heval := @egc_reuse client now c tok claims kt h1 hcond
  have hsnd := (cacheGet_fst_some h1).2.2
  refine ⟨?_, ?_, ?_, ?_⟩ <;> simp [heval, hsnd]

/-- Witness for the amended C1 at the concrete stale-without-refresh-token
cache state. -/
theorem C1_stale_without_refresh_reused_witness :
    (exchange_and_get_context clientExchangeOk 1000
        (some [("u1", tokStaleNoRefresh)]) "entra-token"
        claimsU1).exchangeArgs = [] ∧
    (exchange_and_get_context clientExchangeOk 1000
        (some [("u1", tokStaleNoRefresh)]) "entra-token"
        claimsU1).refreshArgs = [] ∧
    (exchange_and_get_context clientExchangeOk 1000
        (some [("u1", tokStaleNoRefresh)]) "entra-token" claimsU1).result =
      Except.ok (mkAuthContext "entra-token" (entraUserId claimsU1)
        (entraEmail claimsU1) claimsU1 tokStaleNoRefresh) ∧
    (exchange_and_get_context clientExchangeOk 1000
        (some [("u1", tokStaleNoRefresh)]) "entra-token" claimsU1).cache =
      some [("u1", tokStaleNoRefresh)] :=
  C1_stale_without_refresh_reused clientExchangeOk 1000
    [("u1", tokStaleNoRefresh)] "entra-token" claimsU1 tokStaleNoRefresh
    (by rfl) (by rfl)

/-- C3: whenever a `getContext` call reaches the cold-exchange path (it
made an exchange call) and the exchange fails, the failure propagates to
the caller unchanged (the spec's `ExchangeFailed`), the exchange was called
with the primary token, and the cache is observationally unchanged at every
key and every later read time (no partial write; only the read-triggered
eviction of an already-expired entry may have happened, which no later read
can distinguish). -/
theorem C3_exchange_failure_propagates (client : ClientBehavior) (now : Int)
    (c : Cache) (tok : String) (claims : EntraClaims) (e : HttpFailure)
    (hx : client.exchangeResult tok = Except.error e)
    (hreach : (exchange_and_get_context client now (some c) tok
      claims).exchangeArgs ≠ []) :
    (exchange_and_get_context client now (some c) tok claims).result =
      Except.error e ∧
    (exchange_and_get_context client now (some c) tok claims).exchangeArgs =
      [tok] ∧
    ∃ c', (exchange_and_get_context client now (some c) tok claims).cache =
        some c' ∧
      ∀ v later, now ≤ later →
        (cacheGet c' v later).1 = (cacheGet c v later).1 := by
  rcases h1 : (cacheGet c (entraUserId claims) now).1 with _ | kt
  · have heval := @egc_miss client now c tok claims h1
    refine ⟨?_, ?_, ⟨(cacheGet c (entraUserId claims) now).2, ?_,
      fun v later hle =>
        cacheGet_obs c (entraUserId claims) now v later hle⟩⟩ <;>
      simp [heval, coldExchange, hx]
  · rcases hc : kt.needs_refresh now && pyTruthyStr kt.refresh_token
      with _ | _
    · have heval := @egc_reuse client now c tok claims kt h1 hc
      rw [heval] at hreach
      simp at hreach
    · have hc' := hc
      simp only [Bool.and_eq_true] at hc'
      obtain ⟨hnr, htr⟩ := hc'
      rcases hrt : kt.refresh_token with _ | rt
      · rw [hrt] at htr
        simp [pyTruthyStr] at htr
      · have hne : rt ≠ "" := by
          rw [hrt] at htr
          simpa [pyTruthyStr] using htr
        rcases hr : client.refreshResult rt with er | kt2
        · have heval :=
            @egc_refresh_err client now c tok claims kt rt er h1 hnr hrt hne hr
          refine ⟨?_, ?_, ⟨(cacheGet c (entraUserId claims) now).2, ?_,
            fun v later hle =>
              cacheGet_obs c (entraUserId claims) now v later hle⟩⟩ <;>
            simp [heval, coldExchange, hx]
        · have heval :=
            @egc_refresh_ok client now c tok claims kt kt2 rt h1 hnr hrt hne hr
          rw [heval] at hreach
          simp at hreach

/-- Witness for C3: an empty cache and a client whose exchange returns
HTTP 401. -/
theorem C3_exchange_failure_propagates_witness :
    (exchange_and_get_context clientBothFail 1000 (some []) "entra-token"
        claimsU1).result =
      Except.error (HttpFailure.httpStatus 401 "unauthorized") ∧
    (exchange_and_get_context clientBothFail 1000 (some []) "entra-token"
        claimsU1).exchangeArgs = ["entra-token"] ∧
    ∃ c', (exchange_and_get_context clientBothFail 1000 (some [])
        "entra-token" claimsU1).cache = some c' ∧
      ∀ v later, (1000 : Int) ≤ later →
        (cacheGet c' v later).1 = (cacheGet [] v later).1 :=
  C3_exchange_failure_propagates clientBothFail 1000 [] "entra-token"
    claimsU1 (HttpFailure.httpStatus 401 "unauthorized") (by rfl)
    (by simp [exchange_and_get_context, coldExchange, cacheGet, dictLookup,
      clientBothFail])

/-- C4: when the cache holds a stale (`needs_refresh`, not expired) token
with a refresh token and the refresh call fails, the refresh error is not
propagated: the orchestrator falls back to exactly one exchange call with
the primary token, and since that exchange succeeds the call succeeds and
the exchanged token overwrites the cache entry for the primary user id. -/
theorem C4_refresh_failure_falls_back (client : ClientBehavior) (now : Int)
    (c : Cache) (tok : String) (claims : EntraClaims)
    (kt kt2 : KeycloakToken) (rt : String) (er : HttpFailure)
    (h1 : (cacheGet c (entraUserId claims) now).1 = some kt)
    (h2 : kt.needs_refresh now = true)
    (h3 : kt.refresh_token = some rt)
    (h4 : rt ≠ "")
    (h5 : client.refreshResult rt = Except.error er)
    (h6 : client.exchangeResult tok = Except.ok kt2) :
    (exchange_and_get_context client now (some c) tok claims).result =
      Except.ok (mkAuthContext tok (entraUserId claims) (entraEmail claims)
        claims kt2) ∧
    (exchange_and_get_context client now (some c) tok claims).exchangeArgs =
      [tok] ∧
    (exchange_and_get_context client now (some c) tok claims).refreshArgs =
      [rt] ∧
    (exchange_and_get_context client now (some c) tok claims).cache =
      some (cacheSet c (entraUserId claims) kt2) ∧
    dictLookup (cacheSet c (entraUserId claims) kt2) (entraUserId claims) =
      some kt2 := by
  have heval :=
    @egc_refresh_err client now c tok claims kt rt er h1 h2 h3 h4 h5
  have hsnd := (cacheGet_fst_some h1).2.2
  refine ⟨?_, ?_, ?_, ?_, ?_⟩ <;>
    simp [heval, hsnd, coldExchange, h6, dictLookup_cacheSet_self]

/-- Witness for C4 at a concrete stale-with-refresh-token cache state whose
refresh fails and exchange succeeds. -/
theorem C4_refresh_failure_falls_back_witness :
    (exchange_and_get_context clientExchangeOk 1000
        (some [("u1", tokStaleWithRefresh)]) "entra-token"
        claimsU1).result =
      Except.ok (mkAuthContext "entra-token" (entraUserId claimsU1)
        (entraEmail claimsU1) claimsU1 tokFresh) ∧
    (exchange_and_get_context clientExchangeOk 1000
        (some [("u1", tokStaleWithRefresh)]) "entra-token"
        claimsU1).exchangeArgs = ["entra-token"] ∧
    (exchange_and_get_context clientExchangeOk 1000
        (some [("u1", tokStaleWithRefresh)]) "entra-token"
        claimsU1).refreshArgs = ["kc-refresh"] ∧
    (exchange_and_get_context clientExchangeOk 1000
        (some [("u1", tokStaleWithRefresh)]) "entra-token" claimsU1).cache =
      some (cacheSet [("u1", tokStaleWithRefresh)] (entraUserId claimsU1)
        tokFresh) ∧
    dictLookup (cacheSet [("u1", tokStaleWithRefresh)]
        (entraUserId claimsU1) tokFresh) (entraUserId claimsU1) =
      some tokFresh :=
  C4_refresh_failure_falls_back clientExchangeOk 1000
    [("u1", tokStaleWithRefresh)] "entra-token" claimsU1 tokStaleWithRefresh
    tokFresh "kc-refresh" (HttpFailure.httpStatus 401 "invalid_grant")
    (by rfl) (by decide) (by rfl) (by decide) (by rfl) (by rfl)

/-- C7: with a non-stale (not `needs_refresh`) cached token for the primary
user id, two sequential `getContext` calls make zero network calls in
total, both succeed with a context built from that cached token, and the
cache is unchanged after each call. -/
theorem C7_idempotent_on_fresh_cache (client : ClientBehavior) (now : Int)
    (c : Cache) (tok : String) (claims : EntraClaims) (kt : KeycloakToken)
    (h1 : dictLookup c (entraUserId claims) = some kt)
    (h2 : kt.needs_refresh now = false) :
    (exchange_and_get_context client now (some c) tok claims).exchangeArgs =
      [] ∧
    (exchange_and_get_context client now (some c) tok claims).refreshArgs =
      [] ∧
    (exchange_and_get_context client now (some c) tok claims).result =
      Except.ok (mkAuthContext tok (entraUserId claims) (entraEmail claims)
        claims kt) ∧
    (exchange_and_get_context client now (some c) tok claims).cache =
      some c ∧
    (exchange_and_get_context client now
        ((exchange_and_get_context client now (some c) tok claims).cache)
        tok claims).exchangeArgs = [] ∧
    (exchange_and_get_context client now
        ((exchange_and_get_context client now (some c) tok claims).cache)
        tok claims).refreshArgs = [] ∧
    (exchange_and_get_context client now
        ((exchange_and_get_context client now (some c) tok claims).cache)
        tok claims).result =
      Except.ok (mkAuthContext tok (entraUserId claims) (entraEmail claims)
        claims kt) := by
  have hexp : kt.is_expired now = false := not_expired_of_not_needs_refresh h2
  have hfst : (cacheGet c (entraUserId claims) now).1 = some kt := by
    rw [cacheGet_hit h1 hexp]
  have hcond : (kt.needs_refresh now && pyTruthyStr kt.refresh_token) =
      false := by
    simp [h2]
  have heval := @egc_reuse client now c tok claims kt hfst hcond
  have hsnd : (cacheGet c (entraUserId claims) now).2 = c := by
    rw [cacheGet_hit h1 hexp]
  refine ⟨?_, ?_, ?_, ?_, ?_, ?_, ?_⟩ <;> simp [heval, hsnd]

/-- Witness for C7 at a concrete fresh cached token. -/
theorem C7_idempotent_on_fresh_cache_witness :
    (exchange_and_get_context clientBothFail 1000 (some [("u1", tokFresh)])
        "entra-token" claimsU1).exchangeArgs = [] ∧
    (exchange_and_get_context clientBothFail 1000 (some [("u1", tokFresh)])
        "entra-token" claimsU1).refreshArgs = [] ∧
    (exchange_and_get_context clientBothFail 1000 (some [("u1", tokFresh)])
        "entra-token" claimsU1).result =
      Except.ok (mkAuthContext "entra-token" (entraUserId claimsU1)
        (entraEmail claimsU1) claimsU1 tokFresh) ∧
    (exchange_and_get_context clientBothFail 1000 (some [("u1", tokFresh)])
        "entra-token" claimsU1).cache = some [("u1", tokFresh)] ∧
    (exchange_and_get_context clientBothFail 1000
        ((exchange_and_get_context clientBothFail 1000
          (some [("u1", tokFresh)]) "entra-token" claimsU1).cache)
        "entra-token" claimsU1).exchangeArgs = [] ∧
    (exchange_and_get_context clientBothFail 1000
        ((exchange_and_get_context clientBothFail 1000
          (some [("u1", tokFresh)]) "entra-token" claimsU1).cache)
        "entra-token" claimsU1).refreshArgs = [] ∧
    (exchange_and_get_context clientBothFail 1000
        ((exchange_and_get_context clientBothFail 1000
          (some [("u1", tokFresh)]) "entra-token" claimsU1).cache)
        "entra-token" claimsU1).result =
      Except.ok (mkAuthContext "entra-token" (entraUserId claimsU1)
        (entraEmail claimsU1) claimsU1 tokFresh) :=
  C7_idempotent_on_fresh_cache clientBothFail 1000 [("u1", tokFresh)]
    "entra-token" claimsU1 tokFresh (by rfl) (by decide)

end HybridAuth
